import Mathlib

/-!
Verification of the `lib_core::tty::Executor` subsystem of the
`fractic-io/rust-cli-scaffolding` repository
(`src/lib_core/src/tty/executor.rs`).

The embedding is shallow: the OS is an explicit oracle (`OsWorld`) recording
the outcome of directory canonicalization, process spawn, the chunks the
child's pipes deliver (each chunk already lossily decoded to a string, as
`String::from_utf8_lossy` does per read), and the outcome of waiting on the
child.  Read errors in the source (`Err(_) => break`) truncate the chunk
stream, so the oracle's chunk list models the chunks the loops actually
consume.  Console printing done by `Printer` (the informational notices in
`resolve_background_processes`) is not modelled; the terminal echo performed
by the read loops is recorded in the trace because the I/O-mode claims are
about it.
-/

set_option autoImplicit false

namespace CliScaffolding

/-- The `IOMode` enum of `executor.rs` (lines 31-43). -/
inductive IOMode where
  | Attach
  | StreamOutput
  | Silent
  | Mute
  deriving DecidableEq, Repr

/-- The three `std::process::Stdio` wirings used by the executor. -/
inductive Stdio where
  | inherit
  | null
  | piped
  deriving DecidableEq, Repr

/-- Rust `ExitStatus`: a process either exited with a code or was terminated
by a signal (in which case `code()` is `None`). -/
inductive ExitStatus where
  | exited (code : Int)
  | signaled (sig : Nat)
  deriving DecidableEq, Repr

/-- `ExitStatus::success()`: true exactly when the exit code is 0. -/
def ExitStatus.success : ExitStatus → Bool
  | .exited 0 => true
  | _ => false

/-- `ExitStatus::code()`: `Some` code on normal exit, `None` on signal
termination. -/
def ExitStatus.code : ExitStatus → Option Int
  | .exited c => some c
  | .signaled _ => none

/-- The error kinds produced by `executor.rs` and `cli_error.rs`.  Each
`define_cli_error!` invocation generates a distinct struct; we model the
kinds (with the data the constructors receive) as a sum type.  `ioError` is
the `IOError` kind of `cli_error.rs` line 130, used by the executor for
`fs::canonicalize` / `current_dir` failures. -/
inductive CliError where
  | ioError
  | ttyExecuteError
  | ttyCommandFailed (exit_status : ExitStatus) (output : String)
  | ttyBackgroundCommandFailed (exit_status : ExitStatus)
  | ttyRequiredCommandMissing (command : String)
  deriving DecidableEq, Repr

/-- Which pipe of the child a chunk arrived on. -/
inductive PipeId where
  | stdout
  | stderr
  deriving DecidableEq, Repr

/-- The chunks delivered by the child's two pipes, listed in chronological
arrival order.  Each chunk is one successful `read` already decoded
lossily. -/
abbrev ChunkEvents := List (PipeId × String)

instance instDecEqExcept {ε α : Type} [DecidableEq ε] [DecidableEq α] :
    DecidableEq (Except ε α)
  | .ok a, .ok b =>
    if h : a = b then .isTrue (by rw [h])
    else .isFalse (by intro hh; cases hh; exact h rfl)
  | .ok _, .error _ => .isFalse (by intro hh; cases hh)
  | .error _, .ok _ => .isFalse (by intro hh; cases hh)
  | .error e, .error f =>
    if h : e = f then .isTrue (by rw [h])
    else .isFalse (by intro hh; cases hh; exact h rfl)

/-- A spawned child as the executor observes it: the pipe traffic and the
outcome of `wait` (`Except.error ()` models an OS-level wait failure). -/
structure ChildRun where
  events : ChunkEvents
  waitResult : Except Unit ExitStatus
  deriving DecidableEq, Repr

/-- The OS oracle for one `execute` call. -/
structure OsWorld where
  canonicalize : String → Option String
  currentDir : Option String
  spawn : Option ChildRun

/-- `ExecuteOptions` (lines 45-49): optional working directory and optional
environment overlay. -/
structure ExecuteOptions where
  dir : Option String
  env : Option (List (String × String))
  deriving DecidableEq, Repr

/-- Rust's `str::trim`: the string with leading and trailing whitespace
characters removed, modelled on the character list so that it is fully
executable. -/
def strTrim (s : String) : String :=
  { data := ((s.data.dropWhile Char.isWhitespace).reverse.dropWhile Char.isWhitespace).reverse }

/-- The chunks the stdout pipe delivers, in arrival order. -/
def stdoutChunks (events : ChunkEvents) : List String :=
  (events.filter (fun e => e.1 == PipeId.stdout)).map (fun e => e.2)

/-- The chunks the stderr pipe delivers, in arrival order. -/
def stderrChunks (events : ChunkEvents) : List String :=
  (events.filter (fun e => e.1 == PipeId.stderr)).map (fun e => e.2)

/-- Concatenation of a chunk list. -/
def concatChunks : List String → String
  | [] => ""
  | c :: rest => c ++ concatChunks rest

/-- The contents of the `collected_output` buffer after both read loops of a
non-`Attach` call: all stdout chunks (the stdout pipe is read to EOF first),
then all stderr chunks. -/
def capturedOf (events : ChunkEvents) : String :=
  concatChunks (stdoutChunks events) ++ concatChunks (stderrChunks events)

/-- The stdout read loop (lines 149-165): each chunk is echoed to the
terminal when the mode is `StreamOutput` and is always appended to the
collected buffer.  Returns (echoed text, collected buffer). -/
def readLoopStdout (io_mode : IOMode) : List String → String → String → String × String
  | [], echoed, collected => (echoed, collected)
  | c :: rest, echoed, collected =>
    readLoopStdout io_mode rest
      (if io_mode = IOMode.StreamOutput then echoed ++ c else echoed)
      (collected ++ c)

/-- The stderr read loop (lines 167-183): each chunk is echoed to the
terminal unless the mode is `Mute` and is always appended to the collected
buffer.  Returns (echoed text, collected buffer). -/
def readLoopStderr (io_mode : IOMode) : List String → String → String → String × String
  | [], echoed, collected => (echoed, collected)
  | c :: rest, echoed, collected =>
    readLoopStderr io_mode rest
      (if io_mode ≠ IOMode.Mute then echoed ++ c else echoed)
      (collected ++ c)

/-- Resolution of the working directory (lines 119-122): canonicalize
`options.dir` when given, otherwise ask for the current directory; `none`
models failure of either call. -/
def absDirOf (world : OsWorld) (options : ExecuteOptions) : Option String :=
  match options.dir with
  | some p => world.canonicalize p
  | none => world.currentDir

/-- The configuration the child is spawned with (the `Command` builder of
lines 123-143). -/
structure SpawnConfig where
  program : String
  args : List String
  cwd : String
  env : List (String × String)
  stdin : Stdio
  stdout : Stdio
  stderr : Stdio
  deriving DecidableEq, Repr

/-- Trace of one `execute_with_options` call: the spawn configuration (none
when directory resolution failed before anything was spawned), the text
echoed to the terminal's stdout and stderr, the final contents of the
`collected_output` buffer, and the returned result. -/
structure ExecTrace where
  spawnConfig : Option SpawnConfig
  echoedStdout : String
  echoedStderr : String
  collected : String
  result : Except CliError String
  deriving DecidableEq, Repr

/-- `Executor::execute_with_options` (lines 112-195), the awaitable variant.
Directory resolution failure maps to `IOError`; spawn failure maps to
`TtyExecuteError`; for non-`Attach` modes the stdout pipe is drained, then
the stderr pipe, echoing per mode and accumulating into one buffer; wait
failure maps to `TtyExecuteError`; a successful exit returns the trimmed
buffer and a non-successful exit returns `TtyCommandFailed` carrying the
status and the untrimmed buffer. -/
def executeWithOptions (world : OsWorld) (command : String) (args : List String)
    (io_mode : IOMode) (options : ExecuteOptions) : ExecTrace :=
  match absDirOf world options with
  | none =>
    { spawnConfig := none, echoedStdout := "", echoedStderr := "",
      collected := "", result := Except.error CliError.ioError }
  | some abs_dir =>
    let cfg : SpawnConfig :=
      { program := command
        args := args
        cwd := abs_dir
        env := options.env.getD []
        stdin :=
          match io_mode with
          | IOMode.Attach => Stdio.inherit
          | IOMode.StreamOutput | IOMode.Silent | IOMode.Mute => Stdio.null
        stdout :=
          match io_mode with
          | IOMode.Attach => Stdio.inherit
          | IOMode.StreamOutput | IOMode.Silent | IOMode.Mute => Stdio.piped
        stderr :=
          match io_mode with
          | IOMode.Attach => Stdio.inherit
          | IOMode.StreamOutput | IOMode.Silent | IOMode.Mute => Stdio.piped }
    match world.spawn with
    | none =>
      { spawnConfig := some cfg, echoedStdout := "", echoedStderr := "",
        collected := "", result := Except.error CliError.ttyExecuteError }
    | some child =>
      let loops : String × String × String :=
        if io_mode ≠ IOMode.Attach then
          let p1 := readLoopStdout io_mode (stdoutChunks child.events) "" ""
          let p2 := readLoopStderr io_mode (stderrChunks child.events) "" p1.2
          (p1.1, p2.1, p2.2)
        else ("", "", "")
      let collected_output := loops.2.2
      { spawnConfig := some cfg
        echoedStdout := loops.1
        echoedStderr := loops.2.1
        collected := collected_output
        result :=
          match child.waitResult with
          | Except.error _ => Except.error CliError.ttyExecuteError
          | Except.ok status =>
            if status.success then Except.ok (strTrim collected_output)
            else Except.error (CliError.ttyCommandFailed status collected_output) }

/-- The stdout read loop of the blocking variant (lines 245-261), textually
parallel to the awaitable one. -/
def readLoopStdoutSync (io_mode : IOMode) : List String → String → String → String × String
  | [], echoed, collected => (echoed, collected)
  | c :: rest, echoed, collected =>
    readLoopStdoutSync io_mode rest
      (if io_mode = IOMode.StreamOutput then echoed ++ c else echoed)
      (collected ++ c)

/-- The stderr read loop of the blocking variant (lines 263-279). -/
def readLoopStderrSync (io_mode : IOMode) : List String → String → String → String × String
  | [], echoed, collected => (echoed, collected)
  | c :: rest, echoed, collected =>
    readLoopStderrSync io_mode rest
      (if io_mode ≠ IOMode.Mute then echoed ++ c else echoed)
      (collected ++ c)

/-- `Executor::execute_with_options_sync` (lines 208-288), the blocking
variant, which duplicates the awaitable code path with `std::process` in
place of `tokio::process`. -/
def executeWithOptionsSync (world : OsWorld) (command : String) (args : List String)
    (io_mode : IOMode) (options : ExecuteOptions) : ExecTrace :=
  match absDirOf world options with
  | none =>
    { spawnConfig := none, echoedStdout := "", echoedStderr := "",
      collected := "", result := Except.error CliError.ioError }
  | some abs_dir =>
    let cfg : SpawnConfig :=
      { program := command
        args := args
        cwd := abs_dir
        env := options.env.getD []
        stdin :=
          match io_mode with
          | IOMode.Attach => Stdio.inherit
          | IOMode.StreamOutput | IOMode.Silent | IOMode.Mute => Stdio.null
        stdout :=
          match io_mode with
          | IOMode.Attach => Stdio.inherit
          | IOMode.StreamOutput | IOMode.Silent | IOMode.Mute => Stdio.piped
        stderr :=
          match io_mode with
          | IOMode.Attach => Stdio.inherit
          | IOMode.StreamOutput | IOMode.Silent | IOMode.Mute => Stdio.piped }
    match world.spawn with
    | none =>
      { spawnConfig := some cfg, echoedStdout := "", echoedStderr := "",
        collected := "", result := Except.error CliError.ttyExecuteError }
    | some child =>
      let loops : String × String × String :=
        if io_mode ≠ IOMode.Attach then
          let p1 := readLoopStdoutSync io_mode (stdoutChunks child.events) "" ""
          let p2 := readLoopStderrSync io_mode (stderrChunks child.events) "" p1.2
          (p1.1, p2.1, p2.2)
        else ("", "", "")
      let collected_output := loops.2.2
      { spawnConfig := some cfg
        echoedStdout := loops.1
        echoedStderr := loops.2.1
        collected := collected_output
        result :=
          match child.waitResult with
          | Except.error _ => Except.error CliError.ttyExecuteError
          | Except.ok status =>
            if status.success then Except.ok (strTrim collected_output)
            else Except.error (CliError.ttyCommandFailed status collected_output) }

/-- A background child as `resolve_background_processes` observes it: the
outcome of the blocking `wait` (`Except.error ()` is an OS-level wait
failure).  The preceding `try_wait` only selects a console notice and does
not affect the returned value, so it is not modelled. -/
structure BgProcess where
  waitResult : Except Unit ExitStatus
  deriving DecidableEq, Repr

/-- The `Executor` struct (lines 51-54): its only state is the list of
spawned-but-not-yet-awaited background children. -/
structure Executor where
  background_processes : List BgProcess
  deriving DecidableEq, Repr

/-- `Executor::execute_background` (lines 290-306): canonicalize
`dir.unwrap_or(".")` (failure maps to `IOError`), spawn the child with
stdout discarded (failure maps to `TtyExecuteError`; the oracle `spawnR`
is `none` on spawn failure), and on success push the child handle onto the
background list. -/
def executeBackground (ex : Executor) (canonicalize : String → Option String)
    (dir : Option String) (spawnR : Option BgProcess) :
    Executor × Except CliError Unit :=
  match canonicalize (dir.getD ".") with
  | none => (ex, Except.error CliError.ioError)
  | some _ =>
    match spawnR with
    | none => (ex, Except.error CliError.ttyExecuteError)
    | some child =>
      ({ background_processes := ex.background_processes ++ [child] }, Except.ok ())

/-- The loop of `resolve_background_processes` (lines 313-331) over the
drained list.  Returns the children actually waited on (in order) and the
result: a child whose `wait` yields a status with `code().unwrap_or_default()
== 0` (exit code 0, or signal termination where `code()` is `None`) is
treated as success; the first child with a non-zero exit code aborts the
loop with `TtyBackgroundCommandFailed` carrying its status; a `wait` failure
aborts it with `TtyExecuteError`. -/
def resolveLoop : List BgProcess → List BgProcess × Except CliError Unit
  | [] => ([], Except.ok ())
  | p :: rest =>
    match p.waitResult with
    | Except.ok status =>
      if status.code.getD 0 = 0 then
        let r := resolveLoop rest
        (p :: r.1, r.2)
      else ([p], Except.error (CliError.ttyBackgroundCommandFailed status))
    | Except.error _ => ([p], Except.error CliError.ttyExecuteError)

/-- `Executor::resolve_background_processes` (lines 308-333): the whole list
is drained up front (`drain(..)`), so the executor's list is empty afterwards
even when the loop returns early with an error. -/
def resolveBackgroundProcesses (ex : Executor) : Executor × Except CliError Unit :=
  let processes := ex.background_processes
  ({ background_processes := [] }, (resolveLoop processes).2)

/-- `Executor::has_command` (lines 63-90): trim the program name, return
false immediately when it is empty, otherwise spawn the platform's
PATH-lookup helper and report whether it exited successfully
(`unwrap_or(false)` when its status cannot be obtained).  The oracle
`lookupStatus` gives the helper's status for a trimmed name (`none` models a
spawn/status failure).  The second component of the result records whether
the external lookup process was invoked at all. -/
def hasCommand (lookupStatus : String → Option ExitStatus) (program : String) :
    Bool × Bool :=
  let program := strTrim program
  if program.isEmpty then (false, false)
  else
    match lookupStatus program with
    | some status => (status.success, true)
    | none => (false, true)

/-- `Executor::require_command` (lines 92-98). -/
def requireCommand (lookupStatus : String → Option ExitStatus) (program : String) :
    Except CliError Unit :=
  if (hasCommand lookupStatus program).1 then Except.ok ()
  else Except.error (CliError.ttyRequiredCommandMissing program)

/-! Helpers used to state the claims. -/

/-- Extracts the status/output payload when the result is the
command-failed kind, and `none` for every other result. -/
def commandFailedStatusOutput : Except CliError String → Option (ExitStatus × String)
  | Except.error (CliError.ttyCommandFailed status output) => some (status, output)
  | _ => none

/-- The successful output of a result, when there is one. -/
def okOutput : Except CliError String → Option String
  | Except.ok s => some s
  | Except.error _ => none

/-- Classification of a result by error kind. -/
inductive ResultClass where
  | ok
  | ioFailure
  | executeFailure
  | commandFailure
  | backgroundFailure
  | missingCommand
  deriving DecidableEq, Repr

/-- The class of a result. -/
def resultClassOf : Except CliError String → ResultClass
  | Except.ok _ => ResultClass.ok
  | Except.error CliError.ioError => ResultClass.ioFailure
  | Except.error CliError.ttyExecuteError => ResultClass.executeFailure
  | Except.error (CliError.ttyCommandFailed _ _) => ResultClass.commandFailure
  | Except.error (CliError.ttyBackgroundCommandFailed _) => ResultClass.backgroundFailure
  | Except.error (CliError.ttyRequiredCommandMissing _) => ResultClass.missingCommand

/-- Whether a unit result is `Ok`. -/
def isOkUnit : Except CliError Unit → Bool
  | Except.ok _ => true
  | Except.error _ => false

/-- A background child that terminated with a non-zero exit code (the
notion the claims use: signal termination has no exit code and does not
count, nor does a wait failure). -/
def bgNonZeroExit (p : BgProcess) : Bool :=
  match p.waitResult with
  | Except.ok status => status.code.getD 0 != 0
  | Except.error _ => false

/-- A background child the resolution loop stops at: non-zero exit code, or
an OS-level wait failure. -/
def bgFailing (p : BgProcess) : Bool :=
  match p.waitResult with
  | Except.ok status => status.code.getD 0 != 0
  | Except.error _ => true

/-- Modelled from the spec's words, for comparison with the code: the
combined buffer with the chunks of both pipes appended "interleaved in
arrival order", i.e. in the chronological order they arrive from the
child. -/
def arrivalOrderConcat (events : ChunkEvents) : String :=
  concatChunks (events.map (fun e => e.2))

/-! Evaluation lemmas. -/

theorem readLoopStdout_eq (io_mode : IOMode) (chunks : List String)
    (echoed collected : String) :
    readLoopStdout io_mode chunks echoed collected =
      (echoed ++ (if io_mode = IOMode.StreamOutput then concatChunks chunks else ""),
       collected ++ concatChunks chunks) := by
  induction chunks generalizing echoed collected with
  | nil => simp [readLoopStdout, concatChunks]
  | cons c rest ih =>
    simp only [readLoopStdout, concatChunks, ih]
    by_cases h : io_mode = IOMode.StreamOutput <;>
      simp [h, String.append_assoc]

theorem readLoopStderr_eq (io_mode : IOMode) (chunks : List String)
    (echoed collected : String) :
    readLoopStderr io_mode chunks echoed collected =
      (echoed ++ (if io_mode = IOMode.Mute then "" else concatChunks chunks),
       collected ++ concatChunks chunks) := by
  induction chunks generalizing echoed collected with
  | nil => simp [readLoopStderr, concatChunks]
  | cons c rest ih =>
    simp only [readLoopStderr, concatChunks, ih]
    by_cases h : io_mode = IOMode.Mute <;>
      simp [h, String.append_assoc]

theorem readLoopStdoutSync_eq (io_mode : IOMode) (chunks : List String)
    (echoed collected : String) :
    readLoopStdoutSync io_mode chunks echoed collected =
      readLoopStdout io_mode chunks echoed collected := by
  induction chunks generalizing echoed collected with
  | nil => simp [readLoopStdoutSync, readLoopStdout]
  | cons c rest ih => simp [readLoopStdoutSync, readLoopStdout, ih]

theorem readLoopStderrSync_eq (io_mode : IOMode) (chunks : List String)
    (echoed collected : String) :
    readLoopStderrSync io_mode chunks echoed collected =
      readLoopStderr io_mode chunks echoed collected := by
  induction chunks generalizing echoed collected with
  | nil => simp [readLoopStderrSync, readLoopStderr]
  | cons c rest ih => simp [readLoopStderrSync, readLoopStderr, ih]

theorem executeWithOptions_canonFail (world : OsWorld) (command : String)
    (args : List String) (io_mode : IOMode) (options : ExecuteOptions)
    (h : absDirOf world options = none) :
    executeWithOptions world command args io_mode options =
      { spawnConfig := none, echoedStdout := "", echoedStderr := "",
        collected := "", result := Except.error CliError.ioError } := by
  simp [executeWithOptions, h]

theorem executeWithOptions_spawnFail (world : OsWorld) (command : String)
    (args : List String) (io_mode : IOMode) (options : ExecuteOptions)
    (abs_dir : String)
    (hdir : absDirOf world options = some abs_dir)
    (hspawn : world.spawn = none) :
    executeWithOptions world command args io_mode options =
      { spawnConfig := some
          { program := command, args := args, cwd := abs_dir,
            env := options.env.getD [],
            stdin := if io_mode = IOMode.Attach then Stdio.inherit else Stdio.null,
            stdout := if io_mode = IOMode.Attach then Stdio.inherit else Stdio.piped,
            stderr := if io_mode = IOMode.Attach then Stdio.inherit else Stdio.piped },
        echoedStdout := "", echoedStderr := "", collected := "",
        result := Except.error CliError.ttyExecuteError } := by
  cases io_mode <;> simp [executeWithOptions, hdir, hspawn]

theorem executeWithOptions_run (world : OsWorld) (command : String)
    (args : List String) (io_mode : IOMode) (options : ExecuteOptions)
    (abs_dir : String) (child : ChildRun)
    (hdir : absDirOf world options = some abs_dir)
    (hspawn : world.spawn = some child) :
    executeWithOptions world command args io_mode options =
      { spawnConfig := some
          { program := command, args := args, cwd := abs_dir,
            env := options.env.getD [],
            stdin := if io_mode = IOMode.Attach then Stdio.inherit else Stdio.null,
            stdout := if io_mode = IOMode.Attach then Stdio.inherit else Stdio.piped,
            stderr := if io_mode = IOMode.Attach then Stdio.inherit else Stdio.piped },
        echoedStdout :=
          if io_mode = IOMode.StreamOutput then concatChunks (stdoutChunks child.events)
          else "",
        echoedStderr :=
          if io_mode = IOMode.Attach ∨ io_mode = IOMode.Mute then ""
          else concatChunks (stderrChunks child.events),
        collected := if io_mode = IOMode.Attach then "" else capturedOf child.events,
        result :=
          match child.waitResult with
          | Except.error _ => Except.error CliError.ttyExecuteError
          | Except.ok status =>
            if status.success then
              Except.ok (strTrim (if io_mode = IOMode.Attach then ""
                else capturedOf child.events))
            else
              Except.error (CliError.ttyCommandFailed status
                (if io_mode = IOMode.Attach then "" else capturedOf child.events)) } := by
  cases io_mode <;>
    simp [executeWithOptions, hdir, hspawn, readLoopStdout_eq, readLoopStderr_eq,
      capturedOf]

/-- C8: the blocking variant `execute_with_options_sync` and the awaitable
variant `execute_with_options` compute the same result for every input:
identical stdio wiring per `IOMode`, identical directory canonicalization
and environment overlay (the spawn configurations agree), identical
read/echo/accumulate policy (the echoed and collected texts agree), and
identical success and error outcomes — the full traces are equal. -/
theorem sync_and_async_execute_agree (world : OsWorld) (command : String)
    (args : List String) (io_mode : IOMode) (options : ExecuteOptions) :
    executeWithOptionsSync world command args io_mode options =
      executeWithOptions world command args io_mode options := by
  cases hdir : absDirOf world options with
  | none => simp [executeWithOptions, executeWithOptionsSync, hdir]
  | some abs_dir =>
    cases hspawn : world.spawn with
    | none => simp [executeWithOptions, executeWithOptionsSync, hdir, hspawn]
    | some child =>
      simp [executeWithOptions, executeWithOptionsSync, hdir, hspawn,
        readLoopStdoutSync_eq, readLoopStderrSync_eq]

/-! Claim theorems. -/

/-- C1: for every io_mode other than Attach, if the spawned command exits
with code 0 after writing to stdout and/or stderr, execute returns Ok of the
combined captured stdout+stderr text trimmed of leading and trailing
whitespace, regardless of which of the three capturing modes was used (the
right-hand side does not depend on the mode). -/
theorem execute_zero_exit_returns_trimmed_capture
    (world : OsWorld) (command : String) (args : List String) (io_mode : IOMode)
    (options : ExecuteOptions) (abs_dir : String) (child : ChildRun)
    (hmode : io_mode ≠ IOMode.Attach)
    (hdir : absDirOf world options = some abs_dir)
    (hspawn : world.spawn = some child)
    (hwait : child.waitResult = Except.ok (ExitStatus.exited 0)) :
    (executeWithOptions world command args io_mode options).result =
      Except.ok (strTrim (capturedOf child.events)) := by
  rw [executeWithOptions_run world command args io_mode options abs_dir child hdir hspawn]
  simp [hwait, ExitStatus.success, hmode]

theorem execute_zero_exit_returns_trimmed_capture_witness :
    (executeWithOptions
        { canonicalize := fun _ => some "/abs", currentDir := some "/cwd",
          spawn := some { events := [(PipeId.stdout, "  hi"), (PipeId.stderr, " there ")],
                          waitResult := Except.ok (ExitStatus.exited 0) } }
        "echo" ["hello"] IOMode.Mute { dir := none, env := none }).result =
      Except.ok (strTrim (capturedOf [(PipeId.stdout, "  hi"), (PipeId.stderr, " there ")])) :=
  execute_zero_exit_returns_trimmed_capture
    { canonicalize := fun _ => some "/abs", currentDir := some "/cwd",
      spawn := some { events := [(PipeId.stdout, "  hi"), (PipeId.stderr, " there ")],
                      waitResult := Except.ok (ExitStatus.exited 0) } }
    "echo" ["hello"] IOMode.Mute { dir := none, env := none } "/cwd"
    { events := [(PipeId.stdout, "  hi"), (PipeId.stderr, " there ")],
      waitResult := Except.ok (ExitStatus.exited 0) }
    (by decide) rfl rfl rfl

/-- C2: for every io_mode, execute returns the command-failed error kind if
and only if the child spawned, was waited on successfully, and its exit
status was not success; and in that case the error carries exactly the
child's actual exit status together with the full captured stdout+stderr
text (the empty string in Attach mode, where nothing is captured). -/
theorem execute_command_failed_characterization
    (world : OsWorld) (command : String) (args : List String) (io_mode : IOMode)
    (options : ExecuteOptions) :
    commandFailedStatusOutput (executeWithOptions world command args io_mode options).result =
      (match absDirOf world options, world.spawn with
       | some _, some child =>
         (match child.waitResult with
          | Except.ok status =>
            if status.success then none
            else some (status, if io_mode = IOMode.Attach then ""
              else capturedOf child.events)
          | Except.error _ => none)
       | _, _ => none) := by
  cases hdir : absDirOf world options with
  | none =>
    simp [executeWithOptions_canonFail _ _ _ _ _ hdir, commandFailedStatusOutput]
  | some abs_dir =>
    cases hspawn : world.spawn with
    | none =>
      simp [executeWithOptions_spawnFail _ _ _ _ _ _ hdir hspawn,
        commandFailedStatusOutput]
    | some child =>
      rw [executeWithOptions_run _ _ _ _ _ _ _ hdir hspawn]
      cases hwait : child.waitResult with
      | error e => simp [hwait, commandFailedStatusOutput]
      | ok status =>
        cases hs : status.success <;> simp [hwait, hs, commandFailedStatusOutput]

/-- C4 counterexample: the child writes a chunk to stderr strictly before a
chunk to stdout, yet the captured buffer holds the stdout bytes first, so
the buffer is not the arrival-order interleaving the claim asserts. -/
theorem captured_not_arrival_order :
    (executeWithOptions
        { canonicalize := fun _ => some "/w", currentDir := some "/w",
          spawn := some { events := [(PipeId.stderr, "e"), (PipeId.stdout, "o")],
                          waitResult := Except.ok (ExitStatus.exited 0) } }
        "prog" [] IOMode.Mute { dir := none, env := none }).collected = "oe"
    ∧ arrivalOrderConcat [(PipeId.stderr, "e"), (PipeId.stdout, "o")] = "eo"
    ∧ ("oe" : String) ≠ "eo" :=
  ⟨rfl, rfl, by decide⟩

/-- C4 amended: within a capturing mode, the stdout pipe is drained to EOF
first and the stderr pipe second, so the collected buffer is all stdout
chunks (in arrival order) followed by all stderr chunks (in arrival order),
independent of the echo policy; cross-stream arrival order is not
preserved. -/
theorem captured_is_stdout_then_stderr
    (world : OsWorld) (command : String) (args : List String) (io_mode : IOMode)
    (options : ExecuteOptions) (abs_dir : String) (child : ChildRun)
    (hmode : io_mode ≠ IOMode.Attach)
    (hdir : absDirOf world options = some abs_dir)
    (hspawn : world.spawn = some child) :
    (executeWithOptions world command args io_mode options).collected =
      concatChunks (stdoutChunks child.events) ++ concatChunks (stderrChunks child.events) := by
  rw [executeWithOptions_run _ _ _ _ _ _ _ hdir hspawn]
  simp [hmode, capturedOf]

theorem captured_is_stdout_then_stderr_witness :
    (executeWithOptions
        { canonicalize := fun _ => some "/w", currentDir := some "/w",
          spawn := some { events := [(PipeId.stderr, "e"), (PipeId.stdout, "o")],
                          waitResult := Except.ok (ExitStatus.exited 0) } }
        "prog" [] IOMode.StreamOutput { dir := none, env := none }).collected =
      concatChunks (stdoutChunks [(PipeId.stderr, "e"), (PipeId.stdout, "o")]) ++
        concatChunks (stderrChunks [(PipeId.stderr, "e"), (PipeId.stdout, "o")]) :=
  captured_is_stdout_then_stderr
    { canonicalize := fun _ => some "/w", currentDir := some "/w",
      spawn := some { events := [(PipeId.stderr, "e"), (PipeId.stdout, "o")],
                      waitResult := Except.ok (ExitStatus.exited 0) } }
    "prog" [] IOMode.StreamOutput { dir := none, env := none } "/w"
    { events := [(PipeId.stderr, "e"), (PipeId.stdout, "o")],
      waitResult := Except.ok (ExitStatus.exited 0) }
    (by decide) rfl rfl

/-- C5 counterexample: a working directory that fails to canonicalize makes
execute return the distinct I/O-error kind, not the execute-failed kind the
claim names. -/
theorem canonicalize_failure_is_io_error_kind :
    (executeWithOptions
        { canonicalize := fun _ => none, currentDir := none, spawn := none }
        "ls" [] IOMode.Silent { dir := some "/does-not-exist", env := none }).result =
      Except.error CliError.ioError
    ∧ CliError.ioError ≠ CliError.ttyExecuteError :=
  ⟨rfl, by decide⟩

/-- C5 amended: every failure of execute other than a non-zero child exit is
mapped to the execute-failed kind for spawn and wait failures and to the
I/O-error kind for directory-canonicalization failures, so every call
returns Ok, a command-failed error, an execute-failed error, or an I/O
error; and a working directory that fails to resolve yields that failure
before any process is spawned (no spawn configuration is built). -/
theorem execute_error_kind_classification
    (world : OsWorld) (command : String) (args : List String) (io_mode : IOMode)
    (options : ExecuteOptions) :
    resultClassOf (executeWithOptions world command args io_mode options).result =
      (match absDirOf world options, world.spawn with
       | none, _ => ResultClass.ioFailure
       | some _, none => ResultClass.executeFailure
       | some _, some child =>
         match child.waitResult with
         | Except.error _ => ResultClass.executeFailure
         | Except.ok status =>
           if status.success then ResultClass.ok else ResultClass.commandFailure)
    ∧ (executeWithOptions world command args io_mode options).spawnConfig.isSome =
        (absDirOf world options).isSome := by
  cases hdir : absDirOf world options with
  | none =>
    simp [executeWithOptions_canonFail _ _ _ _ _ hdir, resultClassOf]
  | some abs_dir =>
    cases hspawn : world.spawn with
    | none =>
      simp [executeWithOptions_spawnFail _ _ _ _ _ _ hdir hspawn, resultClassOf]
    | some child =>
      rw [executeWithOptions_run _ _ _ _ _ _ _ hdir hspawn]
      cases hwait : child.waitResult with
      | error e => simp [hwait, resultClassOf]
      | ok status =>
        cases hs : status.success <;> simp [hwait, hs, resultClassOf]

/-- C6: for io_mode = Attach every call leaves the capture buffer empty, and
every successful call returns the empty string. -/
theorem attach_success_returns_empty
    (world : OsWorld) (command : String) (args : List String)
    (options : ExecuteOptions) :
    (executeWithOptions world command args IOMode.Attach options).collected = ""
    ∧ (okOutput (executeWithOptions world command args IOMode.Attach options).result = none
       ∨ okOutput (executeWithOptions world command args IOMode.Attach options).result =
           some "") := by
  cases hdir : absDirOf world options with
  | none =>
    simp [executeWithOptions_canonFail _ _ _ _ _ hdir, okOutput]
  | some abs_dir =>
    cases hspawn : world.spawn with
    | none =>
      simp [executeWithOptions_spawnFail _ _ _ _ _ _ hdir hspawn, okOutput]
    | some child =>
      rw [executeWithOptions_run _ _ _ IOMode.Attach _ _ _ hdir hspawn]
      cases hwait : child.waitResult with
      | error e => simp [hwait, okOutput]
      | ok status =>
        cases hs : status.success <;>
          simp [hwait, hs, okOutput, show strTrim "" = "" from rfl]

theorem resolveLoop_eq (ps : List BgProcess) :
    resolveLoop ps =
      (ps.takeWhile (fun p => !bgFailing p) ++ (ps.find? bgFailing).toList,
       match ps.find? bgFailing with
       | none => Except.ok ()
       | some p =>
         match p.waitResult with
         | Except.ok status => Except.error (CliError.ttyBackgroundCommandFailed status)
         | Except.error _ => Except.error CliError.ttyExecuteError) := by
  induction ps with
  | nil => simp [resolveLoop]
  | cons p rest ih =>
    cases hw : p.waitResult with
    | error e =>
      have hb : bgFailing p = true := by simp [bgFailing, hw]
      simp [resolveLoop, hw, hb]
    | ok status =>
      by_cases hc : status.code.getD 0 = 0
      · have hb : bgFailing p = false := by simp [bgFailing, hw, hc]
        simp [resolveLoop, hw, hc, hb, ih]
      · have hb : bgFailing p = true := by simp [bgFailing, hw, hc]
        simp [resolveLoop, hw, hc, hb]

/-- C3 counterexample: a single background child whose wait fails at the OS
level makes resolve_background_processes return an error (of the
execute-failed kind) although no child terminated with a non-zero exit
code, falsifying the claimed if-and-only-if. -/
theorem resolve_background_error_without_nonzero_exit :
    (resolveBackgroundProcesses
        { background_processes := [{ waitResult := Except.error () }] }).2 =
      Except.error CliError.ttyExecuteError
    ∧ List.all [({ waitResult := Except.error () } : BgProcess)] bgNonZeroExit = false :=
  ⟨rfl, rfl⟩

/-- C3 amended: resolve_background_processes waits on the registered
children in registration order only up to and including the first failing
child (non-zero exit code, or OS-level wait failure); children after that
point are not waited on.  In the absence of wait failures it returns an
error if and only if some child exited with a non-zero code (signal
termination counts as success), and the single error returned is the
background-command-failed kind carrying the status of the first such child;
a wait failure instead yields the execute-failed kind.  The drained list is
empty after every call. -/
theorem resolve_background_first_failure_characterization (ps : List BgProcess) :
    ((resolveBackgroundProcesses { background_processes := ps }).2 =
      (match ps.find? bgFailing with
       | none => Except.ok ()
       | some p =>
         match p.waitResult with
         | Except.ok status => Except.error (CliError.ttyBackgroundCommandFailed status)
         | Except.error _ => Except.error CliError.ttyExecuteError))
    ∧ (resolveLoop ps).1 =
        ps.takeWhile (fun p => !bgFailing p) ++ (ps.find? bgFailing).toList
    ∧ (resolveBackgroundProcesses { background_processes := ps }).1.background_processes =
        [] := by
  refine ⟨?_, ?_, rfl⟩
  · simp [resolveBackgroundProcesses, resolveLoop_eq]
  · simp [resolveLoop_eq]

/-- C7: the four IOMode values differ only in stdio wiring and echoing —
stdin is inherited exactly under Attach and null otherwise; stdout and
stderr are piped in every non-Attach mode and inherited under Attach;
stdout chunks are echoed exactly under StreamOutput; stderr chunks are
echoed exactly when the mode is neither Mute nor Attach; and the capture
buffer receives all piped bytes in every non-Attach mode independent of the
echo decision. -/
theorem io_mode_wiring_and_echo
    (world : OsWorld) (command : String) (args : List String) (io_mode : IOMode)
    (options : ExecuteOptions) (abs_dir : String) (child : ChildRun)
    (hdir : absDirOf world options = some abs_dir)
    (hspawn : world.spawn = some child) :
    ((executeWithOptions world command args io_mode options).spawnConfig.map
        (fun cfg => cfg.stdin) =
      some (if io_mode = IOMode.Attach then Stdio.inherit else Stdio.null))
    ∧ ((executeWithOptions world command args io_mode options).spawnConfig.map
        (fun cfg => cfg.stdout) =
      some (if io_mode = IOMode.Attach then Stdio.inherit else Stdio.piped))
    ∧ ((executeWithOptions world command args io_mode options).spawnConfig.map
        (fun cfg => cfg.stderr) =
      some (if io_mode = IOMode.Attach then Stdio.inherit else Stdio.piped))
    ∧ ((executeWithOptions world command args io_mode options).echoedStdout =
      (if io_mode = IOMode.StreamOutput then concatChunks (stdoutChunks child.events)
       else ""))
    ∧ ((executeWithOptions world command args io_mode options).echoedStderr =
      (if io_mode = IOMode.Attach ∨ io_mode = IOMode.Mute then ""
       else concatChunks (stderrChunks child.events)))
    ∧ ((executeWithOptions world command args io_mode options).collected =
      (if io_mode = IOMode.Attach then "" else capturedOf child.events)) := by
  rw [executeWithOptions_run _ _ _ _ _ _ _ hdir hspawn]
  simp

theorem io_mode_wiring_and_echo_witness :
    ((executeWithOptions
        { canonicalize := fun _ => some "/w", currentDir := none,
          spawn := some { events := [(PipeId.stdout, "o"), (PipeId.stderr, "r")],
                          waitResult := Except.ok (ExitStatus.exited 0) } }
        "cmd" ["a"] IOMode.Silent { dir := some "/d", env := none }).spawnConfig.map
        (fun cfg => cfg.stdin) =
      some (if IOMode.Silent = IOMode.Attach then Stdio.inherit else Stdio.null))
    ∧ ((executeWithOptions
        { canonicalize := fun _ => some "/w", currentDir := none,
          spawn := some { events := [(PipeId.stdout, "o"), (PipeId.stderr, "r")],
                          waitResult := Except.ok (ExitStatus.exited 0) } }
        "cmd" ["a"] IOMode.Silent { dir := some "/d", env := none }).spawnConfig.map
        (fun cfg => cfg.stdout) =
      some (if IOMode.Silent = IOMode.Attach then Stdio.inherit else Stdio.piped))
    ∧ ((executeWithOptions
        { canonicalize := fun _ => some "/w", currentDir := none,
          spawn := some { events := [(PipeId.stdout, "o"), (PipeId.stderr, "r")],
                          waitResult := Except.ok (ExitStatus.exited 0) } }
        "cmd" ["a"] IOMode.Silent { dir := some "/d", env := none }).spawnConfig.map
        (fun cfg => cfg.stderr) =
      some (if IOMode.Silent = IOMode.Attach then Stdio.inherit else Stdio.piped))
    ∧ ((executeWithOptions
        { canonicalize := fun _ => some "/w", currentDir := none,
          spawn := some { events := [(PipeId.stdout, "o"), (PipeId.stderr, "r")],
                          waitResult := Except.ok (ExitStatus.exited 0) } }
        "cmd" ["a"] IOMode.Silent { dir := some "/d", env := none }).echoedStdout =
      (if IOMode.Silent = IOMode.StreamOutput then
        concatChunks (stdoutChunks [(PipeId.stdout, "o"), (PipeId.stderr, "r")])
       else ""))
    ∧ ((executeWithOptions
        { canonicalize := fun _ => some "/w", currentDir := none,
          spawn := some { events := [(PipeId.stdout, "o"), (PipeId.stderr, "r")],
                          waitResult := Except.ok (ExitStatus.exited 0) } }
        "cmd" ["a"] IOMode.Silent { dir := some "/d", env := none }).echoedStderr =
      (if IOMode.Silent = IOMode.Attach ∨ IOMode.Silent = IOMode.Mute then ""
       else concatChunks (stderrChunks [(PipeId.stdout, "o"), (PipeId.stderr, "r")])))
    ∧ ((executeWithOptions
        { canonicalize := fun _ => some "/w", currentDir := none,
          spawn := some { events := [(PipeId.stdout, "o"), (PipeId.stderr, "r")],
                          waitResult := Except.ok (ExitStatus.exited 0) } }
        "cmd" ["a"] IOMode.Silent { dir := some "/d", env := none }).collected =
      (if IOMode.Silent = IOMode.Attach then ""
       else capturedOf [(PipeId.stdout, "o"), (PipeId.stderr, "r")])) :=
  io_mode_wiring_and_echo
    { canonicalize := fun _ => some "/w", currentDir := none,
      spawn := some { events := [(PipeId.stdout, "o"), (PipeId.stderr, "r")],
                      waitResult := Except.ok (ExitStatus.exited 0) } }
    "cmd" ["a"] IOMode.Silent { dir := some "/d", env := none } "/w"
    { events := [(PipeId.stdout, "o"), (PipeId.stderr, "r")],
      waitResult := Except.ok (ExitStatus.exited 0) }
    rfl rfl

/-- C9: the background-process list is appended with exactly one child by a
successful execute_background call, is left unchanged by a failing one
(canonicalize or spawn failure), and is empty after every
resolve_background_processes call, including those that return early with
an error.  (execute, execute_sync, has_command and require_command borrow
the executor immutably and are embedded as functions independent of the
Executor state, so they cannot change the list.) -/
theorem background_list_mutation_characterization
    (ex : Executor) (canonicalize : String → Option String) (dir : Option String)
    (spawnR : Option BgProcess) :
    ((executeBackground ex canonicalize dir spawnR).1.background_processes =
      (match canonicalize (dir.getD "."), spawnR with
       | some _, some child => ex.background_processes ++ [child]
       | _, _ => ex.background_processes))
    ∧ (isOkUnit (executeBackground ex canonicalize dir spawnR).2 =
        ((canonicalize (dir.getD ".")).isSome && spawnR.isSome))
    ∧ (resolveBackgroundProcesses ex).1.background_processes = [] := by
  refine ⟨?_, ?_, rfl⟩ <;>
    cases hc : canonicalize (dir.getD ".") <;> cases hs : spawnR <;>
      simp [executeBackground, hc, hs, isOkUnit]

/-- C10: has_command first trims the program name and returns false for
every name that trims to the empty string, without invoking the external
PATH-lookup helper (the invocation flag of the trace is false);
consequently require_command on such a name returns the
required-command-missing error naming the program. -/
theorem empty_program_has_command_false
    (lookupStatus : String → Option ExitStatus) (program : String)
    (h : strTrim program = "") :
    hasCommand lookupStatus program = (false, false)
    ∧ requireCommand lookupStatus program =
        Except.error (CliError.ttyRequiredCommandMissing program) := by
  have h1 : hasCommand lookupStatus program = (false, false) := by
    simp [hasCommand, h, show ("" : String).isEmpty = true from rfl]
  exact ⟨h1, by simp [requireCommand, h1]⟩

theorem empty_program_has_command_false_witness :
    hasCommand (fun _ => some (ExitStatus.exited 0)) "   " = (false, false)
    ∧ requireCommand (fun _ => some (ExitStatus.exited 0)) "   " =
        Except.error (CliError.ttyRequiredCommandMissing "   ") :=
  empty_program_has_command_false (fun _ => some (ExitStatus.exited 0)) "   " rfl

end CliScaffolding
